import Mathlib

/-!
Shallow embedding of the page-exchange and bulk-migration engine
(mm/exchange.c, mm/exchange_page.c, mm/copy_pages.c, mm/memory_manage.c).

Machine memory is modelled at byte granularity as `Nat → Nat`; a page is
`PAGE_SIZE = 4096` consecutive bytes starting at offset 0 of its kmap'd
buffer.  The 8-byte (`u64`) word operations of the C code are modelled as
simultaneous updates of 8 consecutive byte addresses.  Error codes are the
kernel's, as negative integers.
-/

/-- PAGE_SIZE on the architectures this code targets (x86_64). -/
def PAGE_SIZE : Nat := 4096

/-- errno: try again (transient failure). -/
def EAGAIN : Int := 11

/-- errno: out of memory. -/
def ENOMEM : Int := 12

/-- errno: permission denied. -/
def EACCES : Int := 13

/-- errno: bad address. -/
def EFAULT : Int := 14

/-- errno: device busy. -/
def EBUSY : Int := 16

/-- errno: no such device. -/
def ENODEV : Int := 19

/-- errno: no such entry. -/
def ENOENT : Int := 2

/-- include/linux/migrate.h: MIGRATEPAGE_SUCCESS. -/
def MIGRATEPAGE_SUCCESS : Int := 0

/-- A byte-addressed buffer: address to byte value. -/
def Mem : Type := Nat → Nat

/-- The pair of kmap'd buffers handed to the exchange copy routines:
`vto` is the mapped `to` page range, `vfrom` the mapped `from` page range. -/
structure ExchMem where
  vto : Mem
  vfrom : Mem

/-- One iteration of `exchange_page_routine`'s loop body
(src/mm/exchange_page.c lines 43-47): `tmp = *(u64*)(from+i);
*(u64*)(from+i) = *(u64*)(to+i); *(u64*)(to+i) = tmp;` — the 8 bytes at
offset `a` are exchanged between the two buffers. -/
def swapWord8 (m : ExchMem) (a : Nat) : ExchMem where
  vto := fun x => if a ≤ x ∧ x < a + 8 then m.vfrom x else m.vto x
  vfrom := fun x => if a ≤ x ∧ x < a + 8 then m.vto x else m.vfrom x

/-- The loop of `exchange_page_routine`, unrolled by iteration count:
`n` remaining iterations, current offset `base`, stepping by 8. -/
def routineAux : ExchMem → Nat → Nat → ExchMem
  | m, _, 0 => m
  | m, base, n + 1 => routineAux (swapWord8 m base) (base + 8) n

/-- Number of iterations of `for (i = 0; i < chunk_size; i += sizeof(u64))`:
one per started 8-byte word, i.e. ⌈chunk_size / 8⌉.  When `chunk_size` is not
a multiple of 8 the final iteration still moves a full `u64`, reaching past
`chunk_size`. -/
def routineIters (chunk_size : Nat) : Nat := (chunk_size + 7) / 8

/-- `exchange_page_routine(to + base, from + base, chunk_size)`
(src/mm/exchange_page.c lines 38-48) acting on the two buffers; `base` is the
common offset of the chunk inside both buffers. -/
def exchange_page_routine (m : ExchMem) (base chunk_size : Nat) : ExchMem :=
  routineAux m base (routineIters chunk_size)

/-- `exchange_page` (src/mm/exchange.c lines 65-75): the synchronous
whole-page word-by-word swap over `PAGE_SIZE` bytes.  `exchange_highpage`
is the kmap wrapper around it. -/
def exchange_page (m : ExchMem) : ExchMem :=
  exchange_page_routine m 0 PAGE_SIZE

/-- `exchange_huge_page` (src/mm/exchange.c lines 105-129) for a compound
page of `nr_pages` subpages: `exchange_highpage(dst + i, src + i)` for each
subpage, i.e. a full synchronous swap of each 4096-byte subrange. -/
def exchange_huge_page (nr_pages : Nat) (m : ExchMem) : ExchMem :=
  (List.range nr_pages).foldl
    (fun mm i => exchange_page_routine mm (i * PAGE_SIZE) PAGE_SIZE) m

/-- Thread-count computation of `exchange_page_mthread`
(src/mm/exchange_page.c lines 61-75): `total_mt_num = min(limit_mt_num,
cpumask_weight(node mask))`, then rounded down to an even number only when
it is greater than 1. -/
def exchangeTotalMtNum (limit_mt_num weight : Nat) : Nat :=
  let t := min limit_mt_num weight
  if 1 < t then (t / 2) * 2 else t

/-- `exchange_page_mthread(to, from, nr_pages)` (src/mm/exchange_page.c
lines 59-120).  `limit_mt_num` is the configured thread limit (an extern
tunable), `weight` the destination node's CPU count.  Returns `-ENODEV` when
the computed thread count is above 32 or below 1; otherwise splits the
`PAGE_SIZE*nr_pages` byte range into `total_mt_num` chunks of
`chunk_size = PAGE_SIZE*nr_pages / total_mt_num` at offsets `i*chunk_size`
and runs `exchange_page_routine` on each (the work items partition the
range only when `total_mt_num` divides it; they are modelled as executed in
queue order).  Allocation is assumed to succeed (`-ENOMEM` path omitted). -/
def exchange_page_mthread (limit_mt_num weight nr_pages : Nat) (m : ExchMem) :
    Except Int ExchMem :=
  let total_mt_num := exchangeTotalMtNum limit_mt_num weight
  if 32 < total_mt_num ∨ total_mt_num < 1 then
    .error (-ENODEV)
  else
    let chunk_size := PAGE_SIZE * nr_pages / total_mt_num
    .ok ((List.range total_mt_num).foldl
      (fun mm i => exchange_page_routine mm (i * chunk_size) chunk_size) m)

/-- `nr_copythreads` (src/mm/copy_pages.c line 19): the configured number of
copy threads. -/
def nr_copythreads : Nat := 8

/-- Thread-count computation of `copy_pages_mthread`
(src/mm/copy_pages.c lines 49-51): `cthreads = nr_copythreads`, clamped to
the destination node's CPU count, then rounded down to an even number
unconditionally. -/
def copyCthreads (weight : Nat) : Nat :=
  (min nr_copythreads weight / 2) * 2

/-- `memcpy(dst + base, src + base, len)` on byte buffers. -/
def memcpyRange (dst src : Mem) (base len : Nat) : Mem :=
  fun x => if base ≤ x ∧ x < base + len then src x else dst x

/-- `copy_pages_mthread(to, from, nr_pages)` (src/mm/copy_pages.c
lines 40-86).  `weight` is the destination node's CPU count.  The C code
computes `chunk_size = PAGE_SIZE * nr_pages / cthreads` with no guard on
`cthreads`; a zero divisor is a division fault in C, modelled as `none`.
Otherwise each of the `cthreads` work items copies its chunk and the
function returns 0. -/
def copy_pages_mthread (weight nr_pages : Nat) (vto vfrom : Mem) :
    Option (Mem × Int) :=
  let cthreads := copyCthreads weight
  if cthreads = 0 then
    none
  else
    let chunk_size := PAGE_SIZE * nr_pages / cthreads
    some ((List.range cthreads).foldl
      (fun d i => memcpyRange d vfrom (i * chunk_size) chunk_size) vto, 0)

/-!
## Page status flags (`exchange_page_flags`, src/mm/exchange.c lines 134-266)

One page's flag state as touched by `exchange_page_flags`: the status bits
of `struct page_flags` (line 47-62) plus the cpupid (NUMA hint) word and the
memory-cgroup owner.  `priv` models `PagePrivate`.
-/

structure FlagState where
  error : Bool
  referenced : Bool
  uptodate : Bool
  active : Bool
  unevictable : Bool
  checked : Bool
  mappedtodisk : Bool
  dirty : Bool
  young : Bool
  idle : Bool
  swapcache : Bool
  priv : Bool
  writeback : Bool
  cpupid : Int
  memcg : Nat
deriving DecidableEq, Repr

/-- The read-and-clear block of `exchange_page_flags` for one page
(lines 141-161 resp. 164-184): every listed flag is cleared on the page and
`page_cpupid_xchg_last(page, -1)` resets the cpupid word.  `PageSwapCache`
is only read here; it is cleared later (lines 250-251). -/
def clearExchangedFlags (p : FlagState) : FlagState :=
  { p with
    error := false, referenced := false, uptodate := false, active := false,
    unevictable := false, checked := false, mappedtodisk := false,
    dirty := false, young := false, idle := false, priv := false,
    writeback := false, cpupid := -1 }

/-- The conditional-set block of `exchange_page_flags` (lines 187-210 resp.
213-236): each flag saved from the other page is set if it was set there;
`active` wins over `unevictable` (lines 193-197).  `PagePrivate` and
`PageWriteback` have no set branch in the source. -/
def setFlagsFromSaved (saved : FlagState) (p : FlagState) : FlagState :=
  let p := if saved.error then { p with error := true } else p
  let p := if saved.referenced then { p with referenced := true } else p
  let p := if saved.uptodate then { p with uptodate := true } else p
  let p := if saved.active then { p with active := true }
           else if saved.unevictable then { p with unevictable := true } else p
  let p := if saved.checked then { p with checked := true } else p
  let p := if saved.mappedtodisk then { p with mappedtodisk := true } else p
  let p := if saved.dirty then { p with dirty := true } else p
  let p := if saved.young then { p with young := true } else p
  let p := if saved.idle then { p with idle := true } else p
  p

/-- `exchange_page_flags(to_page, from_page)` (src/mm/exchange.c
lines 134-266): save-and-clear both pages' flag bundles, set each page's
flags from the other's saved bundle, exchange the cpupid words, clear both
swap-cache bits then set each from the other's saved bit (lines 250-255),
and exchange `mem_cgroup` ownership (lines 263-264).  `ksm_exchange_page`
is an external service and not modelled.  Returns (new to_page,
new from_page). -/
def exchange_page_flags (to_page from_page : FlagState) :
    FlagState × FlagState :=
  let from_saved := from_page
  let from_page := clearExchangedFlags from_page
  let to_saved := to_page
  let to_page := clearExchangedFlags to_page
  let to_page := setFlagsFromSaved from_saved to_page
  let from_page := setFlagsFromSaved to_saved from_page
  let to_page := { to_page with cpupid := from_saved.cpupid }
  let from_page := { from_page with cpupid := to_saved.cpupid }
  let to_page := { to_page with swapcache := false }
  let from_page := { from_page with swapcache := false }
  let to_page := if from_saved.swapcache then { to_page with swapcache := true }
                 else to_page
  let from_page := if to_saved.swapcache then { from_page with swapcache := true }
                   else from_page
  let to_page := { to_page with memcg := from_saved.memcg }
  let from_page := { from_page with memcg := to_saved.memcg }
  (to_page, from_page)

/-!
## Identity swap (`exchange_page_move_mapping`, src/mm/exchange.c
lines 277-327)

The identity of a page as touched by the function: the raw `page->mapping`
field (for an anonymous page this is the tagged anon_vma pointer, possibly
none), the `page->index` position, the `PageSwapBacked` bit and the
reference count observed by `page_count`.
-/

structure MapPage where
  mappingField : Option Nat
  index : Nat
  swapBacked : Bool
  count : Nat
deriving DecidableEq, Repr

/-- `enum migrate_mode` (src/include/linux/migrate_mode.h) as its flag
bits: `MIGRATE_SINGLETHREAD` is all-false. -/
structure MigrateMode where
  async : Bool
  syncLight : Bool
  sync : Bool
  mt : Bool
deriving DecidableEq, Repr

/-- `exchange_page_move_mapping(to_mapping, from_mapping, to_page,
from_page, mode, to_extra_count, from_extra_count)` (src/mm/exchange.c
lines 277-327).  `to_mapping`/`from_mapping` are the callers'
`page_mapping()` results.  For a page whose `page_mapping()` is NULL the
observed `page_count` must equal `1 + extra_count`, else the function
returns `-EAGAIN` having mutated nothing; otherwise it swaps the two pages'
`(mapping, index)` pairs and `PageSwapBacked` bits and returns
`MIGRATEPAGE_SUCCESS`.  Result: (rc, new to_page, new from_page); `mode` is
unused by the source body. -/
def exchange_page_move_mapping (to_mapping from_mapping : Option Nat)
    (to_page from_page : MapPage) (mode : MigrateMode)
    (to_extra_count from_extra_count : Nat) : Int × MapPage × MapPage :=
  let _ := mode
  let to_expected_count := 1 + to_extra_count
  let from_expected_count := 1 + from_extra_count
  if to_mapping = none ∧ to_page.count ≠ to_expected_count then
    (-EAGAIN, to_page, from_page)
  else if from_mapping = none ∧ from_page.count ≠ from_expected_count then
    (-EAGAIN, to_page, from_page)
  else
    let from_page' : MapPage :=
      { from_page with
        index := to_page.index, mappingField := to_page.mappingField,
        swapBacked := to_page.swapBacked }
    let to_page' : MapPage :=
      { to_page with
        index := from_page.index, mappingField := from_page.mappingField,
        swapBacked := from_page.swapBacked }
    (MIGRATEPAGE_SUCCESS, to_page', from_page')

/-!
## Single-pair commit (`exchange_from_to_pages`, src/mm/exchange.c
lines 329-371)
-/

/-- The full state of one page as seen by `exchange_from_to_pages`:
identity part, flags part, and the two predicates the function's `BUG_ON`
guards test (`page_mapping()` and `PageWriteback`), plus its size class. -/
structure XPage where
  idPart : MapPage
  flags : FlagState
  pageMapping : Option Nat
  huge : Bool
deriving DecidableEq, Repr

/-- Result state of `exchange_from_to_pages`: return code, both pages and
the shared content buffers. -/
structure ExchangeFromToResult where
  rc : Int
  to_page : XPage
  from_page : XPage
  mem : ExchMem

/-- `exchange_from_to_pages(to_page, from_page, mode)` (src/mm/exchange.c
lines 329-371).  `none` models a `BUG_ON` firing: a non-NULL
`page_mapping()` on either side, or a page under writeback.  Otherwise:
identity swap via `exchange_page_move_mapping` (any failure is returned
as-is); then `rc = -EFAULT`, overwritten by `exchange_page_mthread` only
when `MIGRATE_MT` is set; any non-zero `rc` falls back to the synchronous
`exchange_huge_page`/`exchange_highpage` swap and resets `rc = 0`; finally
`exchange_page_flags` runs.  `limit_mt_num`/`weight` parameterise the
multithreaded engine; `nr_pages = hpage_nr_pages(from_page)`. -/
def exchange_from_to_pages (to_page from_page : XPage) (mode : MigrateMode)
    (limit_mt_num weight nr_pages : Nat) (m : ExchMem)
    (to_writeback from_writeback : Bool) : Option ExchangeFromToResult :=
  if to_page.pageMapping ≠ none ∨ from_page.pageMapping ≠ none then
    none
  else if to_writeback ∨ from_writeback then
    none
  else
    let (rc, to_id', from_id') :=
      exchange_page_move_mapping to_page.pageMapping from_page.pageMapping
        to_page.idPart from_page.idPart mode 0 0
    if rc ≠ MIGRATEPAGE_SUCCESS then
      some ⟨rc, { to_page with idPart := to_id' },
            { from_page with idPart := from_id' }, m⟩
    else
      let mtRes : Except Int ExchMem :=
        if mode.mt then exchange_page_mthread limit_mt_num weight nr_pages m
        else .error (-EFAULT)
      let (rc2, m') :=
        match mtRes with
        | .ok mOk => ((0 : Int), mOk)
        | .error _ =>
          ((0 : Int),
           if from_page.huge then exchange_huge_page nr_pages m
           else exchange_page m)
      let (to_flags', from_flags') :=
        exchange_page_flags to_page.flags from_page.flags
      some ⟨rc2,
            { to_page with idPart := to_id', flags := to_flags' },
            { from_page with idPart := from_id', flags := from_flags' }, m'⟩

/-!
## Concurrent batch scheduler (`exchange_pages_concur`, src/mm/exchange.c
lines 786-888)

One pair of the `exchange_list` (`struct exchange_page_info`).  The
environment — lock contention, `try_to_unmap` outcomes, reference counts
observed by the identity commit, and the outcome of a sequential
`unmap_and_exchange_anon` run — is an oracle indexed by pair id and pass
number, so the scheduler's control flow is quantified over every possible
behaviour of those externals.
-/

structure PairInfo where
  id : Nat
  fromHuge : Bool
  toHuge : Bool
  fromMapping : Option Nat
  toMapping : Option Nat
deriving DecidableEq, Repr

structure ConcurOracle where
  trylockFrom : Nat → Nat → Bool
  trylockTo : Nat → Nat → Bool
  unmapRc : Nat → Nat → Int
  mappingRc : Nat → Nat → Int
  seqRc : Nat → Int

/-- `unmap_pair_pages_concur(one_pair, force, mode)` (src/mm/exchange.c
lines 541-660): a failed `trylock_page` on either page returns the initial
`rc = -EAGAIN` unless `force` is set and the mode is not `MIGRATE_ASYNC`,
in which case `lock_page` blocks; with both locks held the outcome
(buffer-release corner cases and the `try_to_unmap` results) is the
oracle's `unmapRc`. -/
def unmap_pair_pages_concur (O : ConcurOracle) (p : PairInfo) (pass : Nat)
    (force asyncMode : Bool) : Int :=
  if ¬ O.trylockFrom p.id pass ∧ (¬ force ∨ asyncMode) then -EAGAIN
  else if ¬ O.trylockTo p.id pass ∧ (¬ force ∨ asyncMode) then -EAGAIN
  else O.unmapRc p.id pass

/-- The per-pair `rc` of the unmap phase (src/mm/exchange.c lines 805-816):
huge pages are diverted with `-ENODEV`; the file-backed test at
lines 809-810 checks `page_mapping(one_pair->from_page)` in BOTH disjuncts
(the source never tests the to-side mapping); otherwise
`unmap_pair_pages_concur` runs with `force = (pass > 2)`. -/
def concur_pair_rc (O : ConcurOracle) (asyncMode : Bool) (pass : Nat)
    (p : PairInfo) : Int :=
  if p.fromHuge ∨ p.toHuge then -ENODEV
  else if p.fromMapping ≠ none ∨ p.fromMapping ≠ none then -ENODEV
  else unmap_pair_pages_concur O p pass (2 < pass) asyncMode

/-- Scheduler state.  `unmapped` entries are `none` once
`remove_migration_ptes_concur` has nulled the entry's page pointers but
left the entry linked (lines 777-780 set the pointers to NULL without
unlinking).  `completed` (ids of pairs whose exchange finished),
`permCount` and `seqFailCount` are instrumentation, not source state;
`crashed` records a NULL-pointer dereference, `aborted` the `goto out` of
the `-ENOMEM` case. -/
structure ConcurState where
  exch : List PairInfo
  unmapped : List (Option PairInfo)
  serial : List PairInfo
  nrFailed : Nat
  nrSucceeded : Nat
  retry : Nat
  completed : List Nat
  permCount : Nat
  seqFailCount : Nat
  crashed : Bool
  aborted : Bool
  trace : List (Nat × Bool)
deriving DecidableEq, Repr

/-- The unmap loop of one pass (src/mm/exchange.c lines 802-842): `-ENODEV`
moves the pair to the serialized list, `-ENOMEM` is `goto out`, `-EAGAIN`
leaves it on the exchange list and bumps `retry`, `MIGRATEPAGE_SUCCESS`
moves it to the unmapped list, anything else is a permanent failure
(serialized list, `nr_failed++`).  `list_move` inserts at the head of the
destination list; `kept` accumulates the pairs remaining on the exchange
list in order. -/
def unmapPhase (O : ConcurOracle) (asyncMode : Bool) (pass : Nat) :
    List PairInfo → List PairInfo → ConcurState → ConcurState
  | [], kept, st => { st with exch := kept.reverse }
  | p :: rest, kept, st =>
    let rc := concur_pair_rc O asyncMode pass p
    if rc = -ENODEV then
      unmapPhase O asyncMode pass rest kept
        { st with serial := p :: st.serial }
    else if rc = -ENOMEM then
      { st with aborted := true, exch := kept.reverse ++ p :: rest }
    else if rc = -EAGAIN then
      unmapPhase O asyncMode pass rest (p :: kept)
        { st with retry := st.retry + 1 }
    else if rc = MIGRATEPAGE_SUCCESS then
      unmapPhase O asyncMode pass rest kept
        { st with
          unmapped := some p :: st.unmapped,
          nrSucceeded := st.nrSucceeded + 1 }
    else
      unmapPhase O asyncMode pass rest kept
        { st with
          serial := p :: st.serial, nrFailed := st.nrFailed + 1,
          permCount := st.permCount + 1 }

/-- `exchange_page_mapping_concur` (src/mm/exchange.c lines 662-699) over
the unmapped list.  For a live pair the function first `BUG_ON`s a
non-NULL `page_mapping()` on either side (lines 682-683): a kernel crash.
Otherwise the identity commit's outcome is the oracle's `mappingRc`; a
non-zero rc moves the pair back to the head of the exchange list.
Reaching an entry whose page pointers were nulled by an earlier pass
dereferences NULL (`page_mapping(to_page)`, the `VM_BUG_ON_PAGE` lock
checks): also a crash.  The function's `nr_failed` return value is
ignored by the caller (line 845). -/
def mappingPhase (O : ConcurOracle) (pass : Nat) :
    List (Option PairInfo) → List (Option PairInfo) → ConcurState →
    ConcurState
  | [], kept, st => { st with unmapped := kept.reverse }
  | none :: _, _, st => { st with crashed := true }
  | some p :: rest, kept, st =>
    if p.fromMapping ≠ none ∨ p.toMapping ≠ none then
      { st with crashed := true }
    else
      let rc := O.mappingRc p.id pass
      if rc ≠ 0 then
        mappingPhase O pass rest kept { st with exch := p :: st.exch }
      else
        mappingPhase O pass rest (some p :: kept) st

/-- `remove_migration_ptes_concur` (src/mm/exchange.c lines 757-784): every
live entry's pair is unlocked and put back — its exchange is complete — and
the entry's page pointers are set to NULL while the entry stays linked on
the unmapped list.  A NULL entry from an earlier pass crashes
(`putback_lru_page(NULL)`).  `exchange_page_data_concur` (lines 701-755)
runs just before and also dereferences NULL entries; its content and flag
swaps and its ignored return value are not tracked here. -/
def remapPhase (st : ConcurState) : ConcurState :=
  if st.unmapped.contains none then { st with crashed := true }
  else
    { st with
      completed := st.completed ++ st.unmapped.filterMap (Option.map PairInfo.id),
      unmapped := st.unmapped.map (fun _ => none) }

/-- One iteration of the pass loop (src/mm/exchange.c lines 798-855),
part 2: unless `goto out` fired, the identity commit, data copy and remap
phases over the unmapped list. -/
def passTail (O : ConcurOracle) (pass : Nat) (st : ConcurState) :
    ConcurState :=
  if st.aborted then st
  else
    let st := mappingPhase O pass st.unmapped [] { st with unmapped := [] }
    if st.crashed then st
    else remapPhase st

/-- One iteration of the pass loop, part 1: reset `retry`, record the pass
and its `pass > 2` force flag, run the unmap loop, then hand over to
`passTail`. -/
def doPass (O : ConcurOracle) (asyncMode : Bool) (pass : Nat)
    (st : ConcurState) : ConcurState :=
  let st := { st with retry := 0, trace := st.trace ++ [(pass, decide (2 < pass))] }
  let pending := st.exch
  passTail O pass (unmapPhase O asyncMode pass pending [] { st with exch := [] })

/-- The pass loop `for (pass = 0; pass < 10 && retry; pass++)`
(line 798): `fuel` is the number of passes still allowed (10 at entry,
`retry` initialised to 1), and a crash or `goto out` stops iterating. -/
def concurPasses (O : ConcurOracle) (asyncMode : Bool) :
    Nat → Nat → ConcurState → ConcurState
  | _, 0, st => st
  | pass, fuel + 1, st =>
    if st.retry = 0 ∨ st.aborted ∨ st.crashed then st
    else concurPasses O asyncMode (pass + 1) fuel (doPass O asyncMode pass st)

/-- The serialized fallback loop (src/mm/exchange.c lines 860-882): each
diverted pair whose pages still carry a `page_mapping` just counts as
failed; otherwise `unmap_and_exchange_anon` runs one pair at a time and a
non-`MIGRATEPAGE_SUCCESS` outcome counts as failed. -/
def serialPhase (O : ConcurOracle) :
    List PairInfo → ConcurState → ConcurState
  | [], st => st
  | p :: rest, st =>
    if p.fromMapping ≠ none ∨ p.toMapping ≠ none then
      serialPhase O rest
        { st with
          nrFailed := st.nrFailed + 1,
          seqFailCount := st.seqFailCount + 1 }
    else if O.seqRc p.id ≠ MIGRATEPAGE_SUCCESS then
      serialPhase O rest
        { st with
          nrFailed := st.nrFailed + 1,
          seqFailCount := st.seqFailCount + 1 }
    else
      serialPhase O rest { st with completed := st.completed ++ [p.id] }

/-- Initial scheduler state for a batch (`retry = 1`, line 791). -/
def initConcurState (pairs : List PairInfo) : ConcurState :=
  { exch := pairs, unmapped := [], serial := [], nrFailed := 0,
    nrSucceeded := 0, retry := 1, completed := [], permCount := 0,
    seqFailCount := 0, crashed := false, aborted := false, trace := [] }

/-- Final state and return value of `exchange_pages_concur`. -/
structure ConcurResult where
  st : ConcurState
  ret : Option Int
deriving DecidableEq, Repr

/-- `exchange_pages_concur(exchange_list, mode, reason)` (src/mm/exchange.c
lines 786-888): the pass loop, then `nr_failed += retry` (line 857), the
serialized fallback, and `return nr_failed ? -EFAULT : 0` (line 887); the
`goto out` path skips the retry add and the serialized loop.  `ret = none`
models a crash (no return). -/
def exchange_pages_concur (O : ConcurOracle) (asyncMode : Bool)
    (pairs : List PairInfo) : ConcurResult :=
  let st := concurPasses O asyncMode 0 10 (initConcurState pairs)
  if st.crashed then ⟨st, none⟩
  else if st.aborted then
    ⟨st, some (if st.nrFailed = 0 then 0 else -EFAULT)⟩
  else
    let st := { st with nrFailed := st.nrFailed + st.retry }
    let st := serialPhase O st.serial st
    ⟨st, some (if st.nrFailed = 0 then 0 else -EFAULT)⟩

/-!
## Tier rebalance entry (`do_mm_manage`, src/mm/memory_manage.c
lines 308-371)
-/

/-- `enum isolate_action` (src/mm/memory_manage.c lines 19-23). -/
inductive IsolateAction where
  | coldPages
  | hotPages
  | hotAndColdPages
deriving DecidableEq, Repr

/-- ULONG_MAX on a 64-bit architecture. -/
def ULONG_MAX : Nat := 2 ^ 64 - 1

/-- The arguments `do_mm_manage` hands to the from-node (slow tier)
`isolate_pages_from_lru_list` call. -/
structure FromIsolationArgs where
  nr_pages : Nat
  from_action : IsolateAction
  nr_free_pages_to_node : Int
deriving DecidableEq, Repr

/-- The candidate-sizing prefix of `do_mm_manage` (src/mm/memory_manage.c
lines 349-371): `max_nr_pages_to_node` is the fast tier's capacity,
`nr_pages_to_node` its occupancy, `nr_pages_from_node` the slow tier's
occupancy (computed at line 351 and not used thereafter), `nr_pages_req`
the requested page budget.  `nr_pages = min(max_nr_pages_to_node,
nr_pages)` (line 360) is the only clamp before the from-node isolation
call; the action widens to hot-and-cold when the fast tier has headroom for
the whole request (lines 363-366). -/
def do_mm_manage_from_isolation
    (max_nr_pages_to_node nr_pages_to_node nr_pages_from_node
     nr_pages_req : Nat) (move_hot_and_cold_pages : Bool) :
    FromIsolationArgs :=
  let _ := nr_pages_from_node
  let nr_free_pages_to_node : Int :=
    (max_nr_pages_to_node : Int) - (nr_pages_to_node : Int)
  let from_action :=
    if move_hot_and_cold_pages then IsolateAction.hotAndColdPages
    else IsolateAction.hotPages
  let nr_pages := min max_nr_pages_to_node nr_pages_req
  let from_action :=
    if nr_pages ≠ ULONG_MAX ∧ 0 < nr_free_pages_to_node ∧
        (nr_pages : Int) < nr_free_pages_to_node then
      IsolateAction.hotAndColdPages
    else from_action
  ⟨nr_pages, from_action, nr_free_pages_to_node⟩

/-!
## Bulk exchange entry (`do_exchange_page_array` / `do_pages_exchange`,
src/mm/exchange.c lines 896-1183)

One side (a `from_addr` or `to_addr`) of a requested pair, described by the
outcomes of the resolution services the code consults in order:
`find_vma`/`vma_migratable`, `follow_page` (an error pointer or NULL),
`page_mapcount`, the huge/compound classification, and
`isolate_lru_page`/`isolate_huge_page`.
-/

structure SideDesc where
  vmaOk : Bool
  followErr : Option Int
  present : Bool
  mapcount : Nat
  huge : Bool
  hugeHead : Bool
  hugeIsolateOk : Bool
  transCompound : Bool
  isTail : Bool
  transHuge : Bool
  lruIsolateRc : Int
deriving DecidableEq, Repr

/-- The per-side resolution of `do_exchange_page_array` (src/mm/exchange.c
lines 923-969 for the from side, 988-1034 for the to side): `-EFAULT` for a
missing/unmigratable VMA, the `follow_page` error, `-ENOENT` for no page,
`-EACCES` for a page shared beyond one mapping without `MPOL_MF_MOVE_ALL`,
a huge page isolates via `isolate_huge_page` (head pages only, `-EACCES`
kept on failure), a compound tail is `-EACCES`, anything else takes
`isolate_lru_page`'s return (0 or `-EBUSY`). -/
def resolve_side (migrate_all : Bool) (s : SideDesc) : Int :=
  if ¬ s.vmaOk then -EFAULT
  else
    match s.followErr with
    | some e => e
    | none =>
      if ¬ s.present then -ENOENT
      else if 1 < s.mapcount ∧ ¬ migrate_all then -EACCES
      else if s.huge then
        if s.hugeHead ∧ s.hugeIsolateOk then 0 else -EACCES
      else if s.transCompound ∧ s.isTail then -EACCES
      else s.lruIsolateRc

/-- One iteration of the build loop of `do_exchange_page_array`
(src/mm/exchange.c lines 917-1073), producing the entry's
`(from_status, to_status)`.  When the from side fails, `continue` is
reached before `pp->to_status` is ever assigned (lines 981-984): `none`
models the never-written to-status.  When both sides resolve, a size-class
mismatch overwrites `to_status` with `-EFAULT` (lines 1050-1053);
otherwise the pair joins the exchange list with `to_status` left 0 —
the later exchange outcome is never written back into it. -/
def process_entry (migrate_all : Bool) (e : SideDesc × SideDesc) :
    Int × Option Int :=
  let from_status := resolve_side migrate_all e.1
  if from_status ≠ 0 then (from_status, none)
  else
    let to_status := resolve_side migrate_all e.2
    if to_status ≠ 0 then (from_status, some to_status)
    else if e.1.huge ≠ e.2.huge ∨ e.1.transHuge ≠ e.2.transHuge then
      (from_status, some (-EFAULT))
    else (from_status, some 0)

/-- The status pairs computed by `do_exchange_page_array` for a chunk of
requested pairs (alloc failures and the exchange call excluded: neither
writes into the per-entry statuses). -/
def do_exchange_page_array (migrate_all : Bool)
    (entries : List (SideDesc × SideDesc)) : List (Int × Option Int) :=
  entries.map (process_entry migrate_all)

/-- The values `do_pages_exchange` copies back to the user status array
(src/mm/exchange.c lines 1170-1174): only `pm[j].to_status` is written
back; `from_status` is never reported.  `none` is a slot whose
`to_status` was never assigned — the user receives whatever the
`__get_free_page`-backed buffer happened to contain. -/
def do_pages_exchange_statuses (migrate_all : Bool)
    (entries : List (SideDesc × SideDesc)) : List (Option Int) :=
  (do_exchange_page_array migrate_all entries).map Prod.snd

/-!
## Concrete test fixtures
-/

/-- A `to` buffer of all-1 bytes over a `from` buffer of all-0 bytes. -/
def memTestPages : ExchMem := ⟨fun _ => 1, fun _ => 0⟩

/-- A page with every modelled flag clear. -/
def flagsAllClear : FlagState :=
  ⟨false, false, false, false, false, false, false, false, false, false,
   false, false, false, 0, 0⟩

/-- A page whose only set flag is `PagePrivate`. -/
def flagsPrivOnly : FlagState := { flagsAllClear with priv := true }

/-- An anonymous unmapped base page at the expected reference count. -/
def anonBasePage : XPage := ⟨⟨none, 0, false, 1⟩, flagsAllClear, none, false⟩

/-- The content of the `from` page visible after a (possibly failing)
`exchange_page_mthread` call, at one byte position: `none` when the call
rejected the configuration. -/
def mthreadVfromAt (limit_mt_num weight nr_pages : Nat) (m : ExchMem)
    (x : Nat) : Option Nat :=
  match exchange_page_mthread limit_mt_num weight nr_pages m with
  | .ok m2 => some (m2.vfrom x)
  | .error _ => none

/-- An oracle under which locks are always free, unmaps and identity
commits always succeed, and the sequential path always succeeds. -/
def trivialOracle : ConcurOracle :=
  ⟨fun _ _ => true, fun _ _ => true, fun _ _ => MIGRATEPAGE_SUCCESS,
   fun _ _ => 0, fun _ => MIGRATEPAGE_SUCCESS⟩

/-- A pair whose `from` page is anonymous but whose `to` page carries a
filesystem mapping. -/
def fileBackedToPair : PairInfo := ⟨0, false, false, none, some 0⟩

/-- A fully valid anonymous base-page side for the bulk entry point. -/
def sideValid : SideDesc :=
  ⟨true, none, true, 1, false, false, false, false, false, false, 0⟩

/-- A side whose address resolves to no migratable VMA. -/
def sideNoVma : SideDesc := { sideValid with vmaOk := false }

/-- The all-anonymous base pair with id 0. -/
def anonPairZero : PairInfo := ⟨0, false, false, none, none⟩

/-- An oracle under which the pair's unmap attempt fails permanently
(`-EBUSY` from `try_to_unmap`) in every pass, while the sequential
`unmap_and_exchange_anon` fallback succeeds. -/
def permThenSeqOkOracle : ConcurOracle :=
  ⟨fun _ _ => true, fun _ _ => true, fun _ _ => -EBUSY,
   fun _ _ => 0, fun _ => MIGRATEPAGE_SUCCESS⟩

/-- An oracle under which locks are free and `try_to_unmap` succeeds on
the mapped page: `try_to_unmap` returns bool in this tree, so
`unmap_pair_pages_concur`'s `rc = try_to_unmap(...)` is 1 when the pages
were unmapped. -/
def unmapTrueOracle : ConcurOracle :=
  ⟨fun _ _ => true, fun _ _ => true, fun _ _ => 1,
   fun _ _ => 0, fun _ => MIGRATEPAGE_SUCCESS⟩

-- ===== definitions above, theorems below =====

/-!
## Per-field characterization of `exchange_page_flags`
-/

theorem epf_to_error (p q : FlagState) :
    ((exchange_page_flags p q).1).error = q.error := by
  simp only [exchange_page_flags, clearExchangedFlags, setFlagsFromSaved,
    apply_ite FlagState.error]
  cases q.error <;> simp

theorem epf_to_referenced (p q : FlagState) :
    ((exchange_page_flags p q).1).referenced = q.referenced := by
  simp only [exchange_page_flags, clearExchangedFlags, setFlagsFromSaved,
    apply_ite FlagState.referenced]
  cases q.referenced <;> simp

theorem epf_to_uptodate (p q : FlagState) :
    ((exchange_page_flags p q).1).uptodate = q.uptodate := by
  simp only [exchange_page_flags, clearExchangedFlags, setFlagsFromSaved,
    apply_ite FlagState.uptodate]
  cases q.uptodate <;> simp

theorem epf_to_active (p q : FlagState) :
    ((exchange_page_flags p q).1).active = q.active := by
  simp only [exchange_page_flags, clearExchangedFlags, setFlagsFromSaved,
    apply_ite FlagState.active]
  cases q.active <;> simp

theorem epf_to_checked (p q : FlagState) :
    ((exchange_page_flags p q).1).checked = q.checked := by
  simp only [exchange_page_flags, clearExchangedFlags, setFlagsFromSaved,
    apply_ite FlagState.checked]
  cases q.checked <;> simp

theorem epf_to_mappedtodisk (p q : FlagState) :
    ((exchange_page_flags p q).1).mappedtodisk = q.mappedtodisk := by
  simp only [exchange_page_flags, clearExchangedFlags, setFlagsFromSaved,
    apply_ite FlagState.mappedtodisk]
  cases q.mappedtodisk <;> simp

theorem epf_to_dirty (p q : FlagState) :
    ((exchange_page_flags p q).1).dirty = q.dirty := by
  simp only [exchange_page_flags, clearExchangedFlags, setFlagsFromSaved,
    apply_ite FlagState.dirty]
  cases q.dirty <;> simp

theorem epf_to_young (p q : FlagState) :
    ((exchange_page_flags p q).1).young = q.young := by
  simp only [exchange_page_flags, clearExchangedFlags, setFlagsFromSaved,
    apply_ite FlagState.young]
  cases q.young <;> simp

theorem epf_to_idle (p q : FlagState) :
    ((exchange_page_flags p q).1).idle = q.idle := by
  simp only [exchange_page_flags, clearExchangedFlags, setFlagsFromSaved,
    apply_ite FlagState.idle]
  cases q.idle <;> simp

theorem epf_to_swapcache (p q : FlagState) :
    ((exchange_page_flags p q).1).swapcache = q.swapcache := by
  simp only [exchange_page_flags, clearExchangedFlags, setFlagsFromSaved,
    apply_ite FlagState.swapcache]
  cases q.swapcache <;> simp

theorem epf_to_unevictable (p q : FlagState) :
    ((exchange_page_flags p q).1).unevictable = (!q.active && q.unevictable) := by
  simp only [exchange_page_flags, clearExchangedFlags, setFlagsFromSaved,
    apply_ite FlagState.unevictable]
  cases q.active <;> cases q.unevictable <;> simp

theorem epf_to_priv (p q : FlagState) :
    ((exchange_page_flags p q).1).priv = false := by
  simp only [exchange_page_flags, clearExchangedFlags, setFlagsFromSaved,
    apply_ite FlagState.priv]
  simp

theorem epf_to_writeback (p q : FlagState) :
    ((exchange_page_flags p q).1).writeback = false := by
  simp only [exchange_page_flags, clearExchangedFlags, setFlagsFromSaved,
    apply_ite FlagState.writeback]
  simp

theorem epf_to_cpupid (p q : FlagState) :
    ((exchange_page_flags p q).1).cpupid = q.cpupid := by
  simp only [exchange_page_flags, clearExchangedFlags, setFlagsFromSaved,
    apply_ite FlagState.cpupid]
  simp

theorem epf_to_memcg (p q : FlagState) :
    ((exchange_page_flags p q).1).memcg = q.memcg := by
  simp only [exchange_page_flags, clearExchangedFlags, setFlagsFromSaved,
    apply_ite FlagState.memcg]

theorem epf_from_error (p q : FlagState) :
    ((exchange_page_flags p q).2).error = p.error := by
  simp only [exchange_page_flags, clearExchangedFlags, setFlagsFromSaved,
    apply_ite FlagState.error]
  cases p.error <;> simp

theorem epf_from_referenced (p q : FlagState) :
    ((exchange_page_flags p q).2).referenced = p.referenced := by
  simp only [exchange_page_flags, clearExchangedFlags, setFlagsFromSaved,
    apply_ite FlagState.referenced]
  cases p.referenced <;> simp

theorem epf_from_uptodate (p q : FlagState) :
    ((exchange_page_flags p q).2).uptodate = p.uptodate := by
  simp only [exchange_page_flags, clearExchangedFlags, setFlagsFromSaved,
    apply_ite FlagState.uptodate]
  cases p.uptodate <;> simp

theorem epf_from_active (p q : FlagState) :
    ((exchange_page_flags p q).2).active = p.active := by
  simp only [exchange_page_flags, clearExchangedFlags, setFlagsFromSaved,
    apply_ite FlagState.active]
  cases p.active <;> simp

theorem epf_from_checked (p q : FlagState) :
    ((exchange_page_flags p q).2).checked = p.checked := by
  simp only [exchange_page_flags, clearExchangedFlags, setFlagsFromSaved,
    apply_ite FlagState.checked]
  cases p.checked <;> simp

theorem epf_from_mappedtodisk (p q : FlagState) :
    ((exchange_page_flags p q).2).mappedtodisk = p.mappedtodisk := by
  simp only [exchange_page_flags, clearExchangedFlags, setFlagsFromSaved,
    apply_ite FlagState.mappedtodisk]
  cases p.mappedtodisk <;> simp

theorem epf_from_dirty (p q : FlagState) :
    ((exchange_page_flags p q).2).dirty = p.dirty := by
  simp only [exchange_page_flags, clearExchangedFlags, setFlagsFromSaved,
    apply_ite FlagState.dirty]
  cases p.dirty <;> simp

theorem epf_from_young (p q : FlagState) :
    ((exchange_page_flags p q).2).young = p.young := by
  simp only [exchange_page_flags, clearExchangedFlags, setFlagsFromSaved,
    apply_ite FlagState.young]
  cases p.young <;> simp

theorem epf_from_idle (p q : FlagState) :
    ((exchange_page_flags p q).2).idle = p.idle := by
  simp only [exchange_page_flags, clearExchangedFlags, setFlagsFromSaved,
    apply_ite FlagState.idle]
  cases p.idle <;> simp

theorem epf_from_swapcache (p q : FlagState) :
    ((exchange_page_flags p q).2).swapcache = p.swapcache := by
  simp only [exchange_page_flags, clearExchangedFlags, setFlagsFromSaved,
    apply_ite FlagState.swapcache]
  cases p.swapcache <;> simp

theorem epf_from_unevictable (p q : FlagState) :
    ((exchange_page_flags p q).2).unevictable = (!p.active && p.unevictable) := by
  simp only [exchange_page_flags, clearExchangedFlags, setFlagsFromSaved,
    apply_ite FlagState.unevictable]
  cases p.active <;> cases p.unevictable <;> simp

theorem epf_from_priv (p q : FlagState) :
    ((exchange_page_flags p q).2).priv = false := by
  simp only [exchange_page_flags, clearExchangedFlags, setFlagsFromSaved,
    apply_ite FlagState.priv]
  simp

theorem epf_from_writeback (p q : FlagState) :
    ((exchange_page_flags p q).2).writeback = false := by
  simp only [exchange_page_flags, clearExchangedFlags, setFlagsFromSaved,
    apply_ite FlagState.writeback]
  simp

theorem epf_from_cpupid (p q : FlagState) :
    ((exchange_page_flags p q).2).cpupid = p.cpupid := by
  simp only [exchange_page_flags, clearExchangedFlags, setFlagsFromSaved,
    apply_ite FlagState.cpupid]
  simp

theorem epf_from_memcg (p q : FlagState) :
    ((exchange_page_flags p q).2).memcg = p.memcg := by
  simp only [exchange_page_flags, clearExchangedFlags, setFlagsFromSaved,
    apply_ite FlagState.memcg]

/-- C2 counterexample: with `PagePrivate` independently set on the from
page, `exchange_page_flags` leaves the flag set on NEITHER page — it is
read-and-cleared from both sides (lines 159-160, 182-183) but the set
blocks (lines 187-236) have no `SetPagePrivate` branch — so the private
flag is not fully exchanged as the claim states. -/
theorem exchange_page_flags_drops_private :
    flagsPrivOnly.priv = true ∧
    ((exchange_page_flags flagsAllClear flagsPrivOnly).1).priv = false ∧
    ((exchange_page_flags flagsAllClear flagsPrivOnly).2).priv = false := by
  decide

/-- C2 (amended): `exchange_page_flags` fully exchanges the error,
referenced, uptodate, active, checked, mapped-to-disk, dirty, young, idle
and swap-cache flags, the unevictable flag (subordinated to active), the
cpupid word and the memory-cgroup owner, between the two pages; the
`PagePrivate` and `PageWriteback` flags are NOT exchanged: they are
cleared from both pages and set on neither. -/
theorem exchange_page_flags_spec (p q : FlagState) :
    ((exchange_page_flags p q).1).error = q.error ∧
    ((exchange_page_flags p q).1).referenced = q.referenced ∧
    ((exchange_page_flags p q).1).uptodate = q.uptodate ∧
    ((exchange_page_flags p q).1).active = q.active ∧
    ((exchange_page_flags p q).1).unevictable = (!q.active && q.unevictable) ∧
    ((exchange_page_flags p q).1).checked = q.checked ∧
    ((exchange_page_flags p q).1).mappedtodisk = q.mappedtodisk ∧
    ((exchange_page_flags p q).1).dirty = q.dirty ∧
    ((exchange_page_flags p q).1).young = q.young ∧
    ((exchange_page_flags p q).1).idle = q.idle ∧
    ((exchange_page_flags p q).1).swapcache = q.swapcache ∧
    ((exchange_page_flags p q).1).cpupid = q.cpupid ∧
    ((exchange_page_flags p q).1).memcg = q.memcg ∧
    ((exchange_page_flags p q).1).priv = false ∧
    ((exchange_page_flags p q).1).writeback = false ∧
    ((exchange_page_flags p q).2).error = p.error ∧
    ((exchange_page_flags p q).2).referenced = p.referenced ∧
    ((exchange_page_flags p q).2).uptodate = p.uptodate ∧
    ((exchange_page_flags p q).2).active = p.active ∧
    ((exchange_page_flags p q).2).unevictable = (!p.active && p.unevictable) ∧
    ((exchange_page_flags p q).2).checked = p.checked ∧
    ((exchange_page_flags p q).2).mappedtodisk = p.mappedtodisk ∧
    ((exchange_page_flags p q).2).dirty = p.dirty ∧
    ((exchange_page_flags p q).2).young = p.young ∧
    ((exchange_page_flags p q).2).idle = p.idle ∧
    ((exchange_page_flags p q).2).swapcache = p.swapcache ∧
    ((exchange_page_flags p q).2).cpupid = p.cpupid ∧
    ((exchange_page_flags p q).2).memcg = p.memcg ∧
    ((exchange_page_flags p q).2).priv = false ∧
    ((exchange_page_flags p q).2).writeback = false :=
  ⟨epf_to_error p q, epf_to_referenced p q, epf_to_uptodate p q,
   epf_to_active p q, epf_to_unevictable p q, epf_to_checked p q,
   epf_to_mappedtodisk p q, epf_to_dirty p q, epf_to_young p q,
   epf_to_idle p q, epf_to_swapcache p q, epf_to_cpupid p q,
   epf_to_memcg p q, epf_to_priv p q, epf_to_writeback p q,
   epf_from_error p q, epf_from_referenced p q, epf_from_uptodate p q,
   epf_from_active p q, epf_from_unevictable p q, epf_from_checked p q,
   epf_from_mappedtodisk p q, epf_from_dirty p q, epf_from_young p q,
   epf_from_idle p q, epf_from_swapcache p q, epf_from_cpupid p q,
   epf_from_memcg p q, epf_from_priv p q, epf_from_writeback p q⟩

/-- Helper: closed-form behaviour of `exchange_page_move_mapping` in the
both-`page_mapping()`-NULL case (the only case its in-tree callers reach,
both of which `BUG_ON` a non-NULL mapping). -/
theorem exchange_page_move_mapping_eq (to_page from_page : MapPage)
    (mode : MigrateMode) (to_extra_count from_extra_count : Nat) :
    exchange_page_move_mapping none none to_page from_page mode
        to_extra_count from_extra_count =
      if to_page.count = 1 + to_extra_count ∧
          from_page.count = 1 + from_extra_count then
        (MIGRATEPAGE_SUCCESS,
         { to_page with
           index := from_page.index,
           mappingField := from_page.mappingField,
           swapBacked := from_page.swapBacked },
         { from_page with
           index := to_page.index,
           mappingField := to_page.mappingField,
           swapBacked := to_page.swapBacked })
      else (-EAGAIN, to_page, from_page) := by
  unfold exchange_page_move_mapping
  split_ifs <;> simp_all

/-- C3: on anonymous pages without mapping (`page_mapping() = NULL` on
both sides), `exchange_page_move_mapping` returns `-EAGAIN` leaving both
pages' mapping, index and swap-backed state untouched whenever either
page's observed reference count differs from the expected `1 +
extra_count`; when both counts match it swaps the two pages' (mapping,
index) pairs (and swap-backed bits) and returns `MIGRATEPAGE_SUCCESS`. -/
theorem exchange_page_move_mapping_refcount_check (to_page from_page : MapPage)
    (mode : MigrateMode) (to_extra_count from_extra_count : Nat) :
    exchange_page_move_mapping none none to_page from_page mode
        to_extra_count from_extra_count =
      if to_page.count = 1 + to_extra_count ∧
          from_page.count = 1 + from_extra_count then
        (MIGRATEPAGE_SUCCESS,
         { to_page with
           index := from_page.index,
           mappingField := from_page.mappingField,
           swapBacked := from_page.swapBacked },
         { from_page with
           index := to_page.index,
           mappingField := to_page.mappingField,
           swapBacked := to_page.swapBacked })
      else (-EAGAIN, to_page, from_page) :=
  exchange_page_move_mapping_eq to_page from_page mode to_extra_count
    from_extra_count

/-- C4: once the identity swap inside `exchange_from_to_pages` succeeds
(both `page_mapping()`s NULL, both reference counts at the expected 1),
the call completes and returns 0 for every multithreading configuration:
when `MIGRATE_MT` is absent or `exchange_page_mthread` returns a negative
status, the synchronous `exchange_huge_page`/`exchange_highpage` swap runs
instead and the return code is reset to 0 — the result never depends on
the accelerated path succeeding. -/
theorem exchange_from_to_pages_mt_fallback (to_page from_page : XPage)
    (mode : MigrateMode) (limit_mt_num weight nr_pages : Nat) (m : ExchMem)
    (hto : to_page.pageMapping = none) (hfrom : from_page.pageMapping = none)
    (hcto : to_page.idPart.count = 1) (hcfrom : from_page.idPart.count = 1) :
    ∃ r : ExchangeFromToResult,
      exchange_from_to_pages to_page from_page mode limit_mt_num weight
          nr_pages m false false = some r ∧
      r.rc = 0 ∧
      ((mode.mt = false ∨
          (exchange_page_mthread limit_mt_num weight nr_pages m).isOk =
            false) →
        r.mem = if from_page.huge then exchange_huge_page nr_pages m
                else exchange_page m) := by
  unfold exchange_from_to_pages
  rw [hto, hfrom]
  rw [exchange_page_move_mapping_eq]
  simp only [hcto, hcfrom, MIGRATEPAGE_SUCCESS]
  simp only [ne_eq, not_true_eq_false, or_self, if_false, and_self, if_true,
    ite_true, ite_false, Bool.false_eq_true, not_false_eq_true]
  cases hX : (if mode.mt = true then
      exchange_page_mthread limit_mt_num weight nr_pages m
    else Except.error (-EFAULT)) with
  | ok mOk =>
    refine ⟨_, rfl, rfl, ?_⟩
    rintro (hmt | hfail)
    · rw [hmt] at hX
      simp at hX
    · by_cases hm : mode.mt = true
      · rw [if_pos hm] at hX
        rw [hX] at hfail
        simp [Except.isOk, Except.toBool] at hfail
      · rw [if_neg hm] at hX
        simp at hX
  | error e =>
    exact ⟨_, rfl, rfl, fun _ => rfl⟩

/-- Witness for `exchange_from_to_pages_mt_fallback` at a concrete input:
sync mode without `MIGRATE_MT`, two anonymous base pages. -/
theorem exchange_from_to_pages_mt_fallback_witness :
    ∃ r : ExchangeFromToResult,
      exchange_from_to_pages anonBasePage anonBasePage
          ⟨false, false, true, false⟩ 2 2 1 memTestPages false false =
        some r ∧
      r.rc = 0 ∧
      (((⟨false, false, true, false⟩ : MigrateMode).mt = false ∨
          (exchange_page_mthread 2 2 1 memTestPages).isOk = false) →
        r.mem = if anonBasePage.huge then exchange_huge_page 1 memTestPages
                else exchange_page memTestPages) :=
  exchange_from_to_pages_mt_fallback anonBasePage anonBasePage
    ⟨false, false, true, false⟩ 2 2 1 memTestPages rfl rfl rfl rfl

/-- Addresses below the routine's window are untouched. -/
theorem routineAux_lo (m : ExchMem) (base n x : Nat) (h : x < base) :
    (routineAux m base n).vto x = m.vto x ∧
    (routineAux m base n).vfrom x = m.vfrom x := by
  induction n generalizing m base with
  | zero => exact ⟨rfl, rfl⟩
  | succ n ih =>
    have hcond : ¬(base ≤ x ∧ x < base + 8) := by omega
    rcases ih (swapWord8 m base) (base + 8) (by omega) with ⟨h1, h2⟩
    refine ⟨?_, ?_⟩
    · rw [show routineAux m base (n + 1) =
        routineAux (swapWord8 m base) (base + 8) n from rfl, h1]
      simp [swapWord8, hcond]
    · rw [show routineAux m base (n + 1) =
        routineAux (swapWord8 m base) (base + 8) n from rfl, h2]
      simp [swapWord8, hcond]

/-- Addresses at or above the routine's window are untouched. -/
theorem routineAux_hi (m : ExchMem) (base n x : Nat) (h : base + 8 * n ≤ x) :
    (routineAux m base n).vto x = m.vto x ∧
    (routineAux m base n).vfrom x = m.vfrom x := by
  induction n generalizing m base with
  | zero => exact ⟨rfl, rfl⟩
  | succ n ih =>
    have hcond : ¬(base ≤ x ∧ x < base + 8) := by omega
    rcases ih (swapWord8 m base) (base + 8) (by omega) with ⟨h1, h2⟩
    refine ⟨?_, ?_⟩
    · rw [show routineAux m base (n + 1) =
        routineAux (swapWord8 m base) (base + 8) n from rfl, h1]
      simp [swapWord8, hcond]
    · rw [show routineAux m base (n + 1) =
        routineAux (swapWord8 m base) (base + 8) n from rfl, h2]
      simp [swapWord8, hcond]

/-- Addresses inside the routine's window are exchanged exactly once. -/
theorem routineAux_swap (m : ExchMem) (base n x : Nat) (h1 : base ≤ x)
    (h2 : x < base + 8 * n) :
    (routineAux m base n).vto x = m.vfrom x ∧
    (routineAux m base n).vfrom x = m.vto x := by
  induction n generalizing m base with
  | zero => omega
  | succ n ih =>
    by_cases hx : x < base + 8
    · have hcond : base ≤ x ∧ x < base + 8 := ⟨h1, hx⟩
      rcases routineAux_lo (swapWord8 m base) (base + 8) n x hx with ⟨g1, g2⟩
      refine ⟨?_, ?_⟩
      · rw [show routineAux m base (n + 1) =
          routineAux (swapWord8 m base) (base + 8) n from rfl, g1]
        simp [swapWord8, hcond]
      · rw [show routineAux m base (n + 1) =
          routineAux (swapWord8 m base) (base + 8) n from rfl, g2]
        simp [swapWord8, hcond]
    · have hcond : ¬(base ≤ x ∧ x < base + 8) := by omega
      rcases ih (swapWord8 m base) (base + 8) (by omega) (by omega)
        with ⟨g1, g2⟩
      refine ⟨?_, ?_⟩
      · rw [show routineAux m base (n + 1) =
          routineAux (swapWord8 m base) (base + 8) n from rfl, g1]
        simp [swapWord8, hcond]
      · rw [show routineAux m base (n + 1) =
          routineAux (swapWord8 m base) (base + 8) n from rfl, g2]
        simp [swapWord8, hcond]

/-- The synchronous single-threaded `exchange_page` swap is correct: after
the call every byte of the page holds the other page's original byte. -/
theorem exchange_page_swaps_all (m : ExchMem) (x : Nat) (h : x < PAGE_SIZE) :
    (exchange_page m).vto x = m.vfrom x ∧
    (exchange_page m).vfrom x = m.vto x := by
  have h4096 : x < 4096 := by simpa [PAGE_SIZE] using h
  have := routineAux_swap m 0 512 x (by omega) (by omega)
  simpa [exchange_page, exchange_page_routine, routineIters, PAGE_SIZE]
    using this

set_option maxRecDepth 40000 in
/-- C1 failing input: with a thread limit of 8 and a destination node of 6
CPUs, `exchange_page_mthread` runs 6 work items of `chunk_size =
4096/6 = 682` over one base page.  682 is not a multiple of the 8-byte
word, so adjacent chunks overlap: byte 682 is moved by chunk 0's last word
(offsets 680-687) and again by chunk 1's first word, ending at its own
original value instead of the other page's — the `from` page's byte 682
stays 0 although the `to` page held 1 there before the call (the final
chunk's last word also reads 2 bytes past the page).  The claimed
content-swap property fails for this reachable configuration. -/
theorem exchange_page_mthread_six_threads_unswapped_byte :
    mthreadVfromAt 8 6 1 memTestPages 682 = some 0 ∧
    memTestPages.vto 682 = 1 := by
  decide

/-- C9 counterexample: the claim requires the threaded path to be rejected
whenever the computed thread count is ≤ 1, but on a destination node with a
single CPU (`min(limit, weight) = 1`) `exchange_page_mthread` skips the
even rounding (guarded by `total_mt_num > 1`) and the `< 1` check does not
fire: the call proceeds with one work item instead of returning an error. -/
theorem exchange_page_mthread_accepts_single_thread :
    (exchange_page_mthread 8 1 1 memTestPages).isOk = true := by
  rfl

/-- C9 (amended): `exchange_page_mthread` computes its thread count as
`min(limit_mt_num, node CPU count)`, rounds it down to an even number only
when it exceeds 1, and rejects with `-ENODEV` exactly when that minimum is
0 or at least 34 (the rounded count then exceeds the 32-entry worker
array); a count of exactly 1 is accepted and runs single-threaded. -/
theorem exchange_page_mthread_reject_iff (limit_mt_num weight nr_pages : Nat)
    (m : ExchMem) :
    exchange_page_mthread limit_mt_num weight nr_pages m =
        .error (-ENODEV) ↔
      (min limit_mt_num weight = 0 ∨ 34 ≤ min limit_mt_num weight) := by
  simp only [exchange_page_mthread, exchangeTotalMtNum]
  by_cases h1 : 1 < min limit_mt_num weight
  · rw [if_pos h1]
    by_cases h2 : 32 < min limit_mt_num weight / 2 * 2 ∨
        min limit_mt_num weight / 2 * 2 < 1
    · rw [if_pos h2]
      simp only [true_iff]
      omega
    · rw [if_neg h2]
      simp only [reduceCtorEq, false_iff]
      omega
  · rw [if_neg h1]
    by_cases h2 : 32 < min limit_mt_num weight ∨ min limit_mt_num weight < 1
    · rw [if_pos h2]
      simp only [true_iff]
      omega
    · rw [if_neg h2]
      simp only [reduceCtorEq, false_iff]
      omega

/-- C10: on a destination node whose cpumask weight is 1,
`copy_pages_mthread` computes `cthreads = (min(8,1)/2)*2 = 0` — there is no
guard like `exchange_page_mthread`'s — and then divides
`PAGE_SIZE * nr_pages` by it: a division by zero, so the claimed
strict positivity of the divisor fails for CPU count 1. -/
theorem copy_pages_mthread_single_cpu_zero_divisor (nr_pages : Nat)
    (vto vfrom : Mem) :
    copyCthreads 1 = 0 ∧ copy_pages_mthread 1 nr_pages vto vfrom = none :=
  ⟨rfl, rfl⟩

/-- C5 failing input: a pair whose `to` page carries a filesystem mapping
while the `from` page is anonymous.  The divert test at src/mm/exchange.c
lines 809-810 reads `page_mapping(one_pair->from_page)` in both disjuncts
and never inspects the `to` page, so — contrary to the claim and to the
source's own comment "We do not exchange huge pages and file-backed pages
concurrently" — the pair is never diverted with `-ENODEV` at that check.
What follows is not the claimed clean diversion either.
`unmap_pair_pages_concur` returns the `to` page's `try_to_unmap` result,
a bool in this tree: if it is false (0, the page stays mapped) the switch
treats it as `MIGRATEPAGE_SUCCESS`, the pair reaches
`exchange_page_mapping_concur`, and `BUG_ON(to_page_mapping)` at line 683
crashes the kernel; if it is true (1) the switch's default branch counts
the pair as a permanent failure (`nr_failed++`) onto the serialized list,
where the mapping check at lines 865-868 fails it again — the call
returns `-EFAULT` with the pair counted failed twice and never
exchanged. -/
theorem concur_unmap_misses_file_backed_to_page :
    fileBackedToPair.toMapping = some 0 ∧
    concur_pair_rc trivialOracle false 0 fileBackedToPair ≠ -ENODEV ∧
    concur_pair_rc unmapTrueOracle false 0 fileBackedToPair ≠ -ENODEV ∧
    (exchange_pages_concur trivialOracle false
        [fileBackedToPair]).st.crashed = true ∧
    (exchange_pages_concur trivialOracle false [fileBackedToPair]).ret =
      none ∧
    (exchange_pages_concur unmapTrueOracle false
        [fileBackedToPair]).st.serial = [fileBackedToPair] ∧
    (exchange_pages_concur unmapTrueOracle false
        [fileBackedToPair]).st.nrFailed = 2 ∧
    (exchange_pages_concur unmapTrueOracle false [fileBackedToPair]).ret =
      some (-EFAULT) := by
  decide

/-- C7 counterexample: requested budget 100, fast-tier capacity 50 and
occupancy 40, slow-tier occupancy 20.  The claim requires the request to
be clamped to the slow tier's occupancy (≤ 20) as well, but `do_mm_manage`
passes `min(capacity, request) = 50` to the isolation call. -/
theorem do_mm_manage_clamp_counterexample :
    (do_mm_manage_from_isolation 50 40 20 100 false).nr_pages = 50 ∧
    ¬((do_mm_manage_from_isolation 50 40 20 100 false).nr_pages ≤ 20) := by
  decide

/-- C7 (amended): before any candidate isolation, `do_mm_manage` clamps
the requested page count only to the fast tier's total capacity
(`nr_pages = min(max_nr_pages_to_node, nr_pages)`, line 360); the slow
tier's occupancy is computed (line 351) but takes no part in the clamp —
the isolation arguments are independent of it. -/
theorem do_mm_manage_clamp_spec (max_nr_pages_to_node nr_pages_to_node
    nr_pages_from_node nr_pages_req : Nat) (move_hot_and_cold : Bool) :
    (do_mm_manage_from_isolation max_nr_pages_to_node nr_pages_to_node
        nr_pages_from_node nr_pages_req move_hot_and_cold).nr_pages =
      min max_nr_pages_to_node nr_pages_req ∧
    ∀ other_from_occupancy : Nat,
      do_mm_manage_from_isolation max_nr_pages_to_node nr_pages_to_node
          nr_pages_from_node nr_pages_req move_hot_and_cold =
        do_mm_manage_from_isolation max_nr_pages_to_node nr_pages_to_node
          other_from_occupancy nr_pages_req move_hot_and_cold :=
  ⟨rfl, fun _ => rfl⟩

/-- C8 failing input: a requested pair whose `from` address has no
migratable VMA (alongside a fully valid second pair).  The from side's
status is computed as `-EFAULT`, but the loop `continue`s before
`pp->to_status` is ever assigned, and only `to_status` is copied to the
user status array — so the reported slot for the failed pair is
uninitialized buffer memory (`none`), not the negative code the claim
requires.  The second pair is still processed (status 0), so processing
does continue past the failure. -/
theorem do_pages_exchange_status_unset_on_from_failure :
    (do_exchange_page_array false
        [(sideNoVma, sideValid), (sideValid, sideValid)]).map Prod.fst =
      [-EFAULT, 0] ∧
    do_pages_exchange_statuses false
        [(sideNoVma, sideValid), (sideValid, sideValid)] =
      [none, some 0] := by
  decide

/-- The unmap loop touches neither the trace nor the sequential-failure
counter, and moves `nrFailed` and `permCount` in lockstep. -/
theorem unmapPhase_inv (O : ConcurOracle) (a : Bool) (pass : Nat) :
    ∀ (pend kept : List PairInfo) (st : ConcurState),
    (unmapPhase O a pass pend kept st).trace = st.trace ∧
    (unmapPhase O a pass pend kept st).seqFailCount = st.seqFailCount ∧
    (unmapPhase O a pass pend kept st).nrFailed + st.permCount =
      st.nrFailed + (unmapPhase O a pass pend kept st).permCount := by
  intro pend
  induction pend with
  | nil => exact fun kept st => ⟨rfl, rfl, rfl⟩
  | cons p rest ih =>
    intro kept st
    simp only [unmapPhase]
    split_ifs
    · exact ih kept { st with serial := p :: st.serial }
    · exact ⟨rfl, rfl, rfl⟩
    · exact ih (p :: kept) { st with retry := st.retry + 1 }
    · exact ih kept
        { st with
          unmapped := some p :: st.unmapped,
          nrSucceeded := st.nrSucceeded + 1 }
    · obtain ⟨t, s, n⟩ := ih kept
        { st with
          serial := p :: st.serial, nrFailed := st.nrFailed + 1,
          permCount := st.permCount + 1 }
      refine ⟨t, s, ?_⟩
      dsimp only at n
      omega

/-- The identity-commit loop touches none of the counters nor the trace. -/
theorem mappingPhase_inv (O : ConcurOracle) (pass : Nat) :
    ∀ (pend kept : List (Option PairInfo)) (st : ConcurState),
    (mappingPhase O pass pend kept st).trace = st.trace ∧
    (mappingPhase O pass pend kept st).seqFailCount = st.seqFailCount ∧
    (mappingPhase O pass pend kept st).nrFailed = st.nrFailed ∧
    (mappingPhase O pass pend kept st).permCount = st.permCount := by
  intro pend
  induction pend with
  | nil => exact fun kept st => ⟨rfl, rfl, rfl, rfl⟩
  | cons e rest ih =>
    intro kept st
    cases e with
    | none => exact ⟨rfl, rfl, rfl, rfl⟩
    | some p =>
      simp only [mappingPhase]
      split_ifs
      · exact ⟨rfl, rfl, rfl, rfl⟩
      · exact ih kept { st with exch := p :: st.exch }
      · exact ih (some p :: kept) st

/-- The remap phase touches none of the counters nor the trace. -/
theorem remapPhase_inv (st : ConcurState) :
    (remapPhase st).trace = st.trace ∧
    (remapPhase st).seqFailCount = st.seqFailCount ∧
    (remapPhase st).nrFailed = st.nrFailed ∧
    (remapPhase st).permCount = st.permCount := by
  simp only [remapPhase]
  split_ifs <;> exact ⟨rfl, rfl, rfl, rfl⟩

/-- The serialized fallback loop touches neither the trace, the retry
counter nor the permanent-failure counter, and moves `nrFailed` and
`seqFailCount` in lockstep. -/
theorem serialPhase_inv (O : ConcurOracle) :
    ∀ (pend : List PairInfo) (st : ConcurState),
    (serialPhase O pend st).trace = st.trace ∧
    (serialPhase O pend st).permCount = st.permCount ∧
    (serialPhase O pend st).retry = st.retry ∧
    (serialPhase O pend st).crashed = st.crashed ∧
    (serialPhase O pend st).aborted = st.aborted ∧
    (serialPhase O pend st).nrFailed + st.seqFailCount =
      st.nrFailed + (serialPhase O pend st).seqFailCount := by
  intro pend
  induction pend with
  | nil => exact fun st => ⟨rfl, rfl, rfl, rfl, rfl, rfl⟩
  | cons p rest ih =>
    intro st
    simp only [serialPhase]
    split_ifs
    · obtain ⟨t, pc, r, cr, ab, n⟩ := ih
        { st with
          nrFailed := st.nrFailed + 1,
          seqFailCount := st.seqFailCount + 1 }
      refine ⟨t, pc, r, cr, ab, ?_⟩
      dsimp only at n
      omega
    · obtain ⟨t, pc, r, cr, ab, n⟩ := ih
        { st with
          nrFailed := st.nrFailed + 1,
          seqFailCount := st.seqFailCount + 1 }
      refine ⟨t, pc, r, cr, ab, ?_⟩
      dsimp only at n
      omega
    · exact ih { st with completed := st.completed ++ [p.id] }

/-- `passTail` touches none of the counters nor the trace. -/
theorem passTail_inv (O : ConcurOracle) (pass : Nat) (st : ConcurState) :
    (passTail O pass st).trace = st.trace ∧
    (passTail O pass st).seqFailCount = st.seqFailCount ∧
    (passTail O pass st).nrFailed = st.nrFailed ∧
    (passTail O pass st).permCount = st.permCount := by
  simp only [passTail]
  split_ifs with h1 h2
  · exact ⟨rfl, rfl, rfl, rfl⟩
  · exact mappingPhase_inv O pass st.unmapped [] { st with unmapped := [] }
  · obtain ⟨t1, s1, n1, p1⟩ :=
      mappingPhase_inv O pass st.unmapped [] { st with unmapped := [] }
    obtain ⟨t2, s2, n2, p2⟩ := remapPhase_inv
      (mappingPhase O pass st.unmapped [] { st with unmapped := [] })
    exact ⟨t2.trans t1, s2.trans s1, n2.trans n1, p2.trans p1⟩

/-- One pass appends exactly its (pass, force) record to the trace,
preserves the sequential-failure counter and moves `nrFailed`/`permCount`
in lockstep. -/
theorem doPass_inv (O : ConcurOracle) (a : Bool) (pass : Nat)
    (st : ConcurState) :
    (doPass O a pass st).trace = st.trace ++ [(pass, decide (2 < pass))] ∧
    (doPass O a pass st).seqFailCount = st.seqFailCount ∧
    (doPass O a pass st).nrFailed + st.permCount =
      st.nrFailed + (doPass O a pass st).permCount := by
  simp only [doPass]
  obtain ⟨tP, sP, nP, pP⟩ := passTail_inv O pass
    (unmapPhase O a pass st.exch []
      { st with
        exch := [], retry := 0,
        trace := st.trace ++ [(pass, decide (2 < pass))] })
  obtain ⟨tU, sU, nU⟩ := unmapPhase_inv O a pass st.exch []
    { st with
      exch := [], retry := 0,
      trace := st.trace ++ [(pass, decide (2 < pass))] }
  dsimp only at tU sU nU
  exact ⟨tP.trans tU, sP.trans sU, by omega⟩

/-- The pass loop runs at most `fuel` passes, records each executed pass
with its `pass > 2` force flag, preserves the sequential-failure counter
and moves `nrFailed`/`permCount` in lockstep. -/
theorem concurPasses_inv (O : ConcurOracle) (a : Bool) :
    ∀ (fuel pass : Nat) (st : ConcurState),
    ∃ l : List (Nat × Bool),
      (concurPasses O a pass fuel st).trace = st.trace ++ l ∧
      l.length ≤ fuel ∧
      (∀ e ∈ l, e.2 = decide (2 < e.1)) ∧
      (concurPasses O a pass fuel st).seqFailCount = st.seqFailCount ∧
      (concurPasses O a pass fuel st).nrFailed + st.permCount =
        st.nrFailed + (concurPasses O a pass fuel st).permCount := by
  intro fuel
  induction fuel with
  | zero =>
    intro pass st
    exact ⟨[], by simp [concurPasses], by simp, by simp, rfl, rfl⟩
  | succ fuel ih =>
    intro pass st
    simp only [concurPasses]
    split_ifs with h
    · exact ⟨[], by simp, by simp, by simp, rfl, rfl⟩
    · obtain ⟨l, tl, ll, le, sl, nl⟩ := ih (pass + 1) (doPass O a pass st)
      obtain ⟨tD, sD, nD⟩ := doPass_inv O a pass st
      refine ⟨(pass, decide (2 < pass)) :: l, ?_, ?_, ?_, ?_, ?_⟩
      · rw [tl, tD, List.append_assoc]
        rfl
      · simpa using Nat.succ_le_succ ll
      · intro e he
        rcases List.mem_cons.mp he with h1 | h2
        · rw [h1]
        · exact le e h2
      · rw [sl, sD]
      · omega

/-- C6 (amended): `exchange_pages_concur` runs at most 10 passes, and each
executed pass hands `unmap_pair_pages_concur` the blocking-lock force flag
exactly when the pass number exceeds 2 (blocking from the 4th pass on);
when the run does not crash it returns 0 if its failure counter is zero
and `-EFAULT` otherwise; and — absent a crash or the `-ENOMEM` abort —
that counter equals the number of permanent unmap-phase failures plus the
pairs still transiently failing when the passes end plus the failures of
the serialized fallback.  It is NOT the number of pairs that never
exchanged: a pair diverted by a permanent unmap failure is counted even
when its sequential retry then succeeds. -/
theorem exchange_pages_concur_spec (O : ConcurOracle) (asyncMode : Bool)
    (pairs : List PairInfo) :
    (exchange_pages_concur O asyncMode pairs).st.trace.length ≤ 10 ∧
    (∀ e ∈ (exchange_pages_concur O asyncMode pairs).st.trace,
      e.2 = decide (2 < e.1)) ∧
    ((exchange_pages_concur O asyncMode pairs).st.crashed = false →
      (exchange_pages_concur O asyncMode pairs).ret =
        some (if (exchange_pages_concur O asyncMode pairs).st.nrFailed = 0
              then 0 else -EFAULT)) ∧
    ((exchange_pages_concur O asyncMode pairs).st.crashed = false →
      (exchange_pages_concur O asyncMode pairs).st.aborted = false →
      (exchange_pages_concur O asyncMode pairs).st.nrFailed =
        (exchange_pages_concur O asyncMode pairs).st.permCount +
          (exchange_pages_concur O asyncMode pairs).st.retry +
          (exchange_pages_concur O asyncMode pairs).st.seqFailCount) := by
  obtain ⟨l, tl, ll, le, sl, nl⟩ :=
    concurPasses_inv O asyncMode 10 0 (initConcurState pairs)
  rw [show (initConcurState pairs).trace = [] from rfl] at tl
  rw [show (initConcurState pairs).seqFailCount = 0 from rfl] at sl
  rw [show (initConcurState pairs).permCount = 0 from rfl,
    show (initConcurState pairs).nrFailed = 0 from rfl] at nl
  rw [List.nil_append] at tl
  simp only [exchange_pages_concur]
  by_cases hc :
      (concurPasses O asyncMode 0 10 (initConcurState pairs)).crashed = true
  · rw [if_pos hc]
    refine ⟨?_, ?_, ?_, ?_⟩
    · dsimp only
      rw [tl]
      exact ll
    · dsimp only
      rw [tl]
      exact le
    · intro h
      dsimp only at h
      rw [hc] at h
      simp at h
    · intro h
      dsimp only at h
      rw [hc] at h
      simp at h
  · rw [if_neg hc]
    by_cases ha :
        (concurPasses O asyncMode 0 10 (initConcurState pairs)).aborted = true
    · rw [if_pos ha]
      refine ⟨?_, ?_, ?_, ?_⟩
      · dsimp only
        rw [tl]
        exact ll
      · dsimp only
        rw [tl]
        exact le
      · intro _
        rfl
      · intro _ h
        dsimp only at h
        rw [ha] at h
        simp at h
    · rw [if_neg ha]
      obtain ⟨tS, pcS, rS, crS, abS, nS⟩ := serialPhase_inv O
        (concurPasses O asyncMode 0 10 (initConcurState pairs)).serial
        { concurPasses O asyncMode 0 10 (initConcurState pairs) with
          nrFailed :=
            (concurPasses O asyncMode 0 10 (initConcurState pairs)).nrFailed +
              (concurPasses O asyncMode 0 10 (initConcurState pairs)).retry }
      dsimp only at tS pcS rS crS abS nS
      refine ⟨?_, ?_, ?_, ?_⟩
      · dsimp only
        rw [tS, tl]
        exact ll
      · dsimp only
        rw [tS, tl]
        exact le
      · intro _
        rfl
      · intro _ _
        dsimp only
        omega

/-- C6 counterexample: one anonymous pair whose unmap attempt fails
permanently (`-EBUSY`) in pass 0 — so it is diverted and `nr_failed`
becomes 1 — and whose serialized `unmap_and_exchange_anon` retry then
succeeds.  Every pair of the batch exchanged successfully (`completed =
[0]`), so the count of pairs that never exchanged is 0, yet the scheduler's
result counter is 1 and the call returns `-EFAULT`: the result is not "the
total count of pairs that never successfully exchanged". -/
theorem exchange_pages_concur_counts_exchanged_pair :
    (exchange_pages_concur permThenSeqOkOracle false
        [anonPairZero]).st.completed = [0] ∧
    (exchange_pages_concur permThenSeqOkOracle false
        [anonPairZero]).st.nrFailed = 1 ∧
    (exchange_pages_concur permThenSeqOkOracle false [anonPairZero]).ret =
      some (-EFAULT) := by
  decide

/-- Witness for `exchange_pages_concur_spec` at a concrete no-crash,
no-abort run. -/
theorem exchange_pages_concur_spec_witness :
    (exchange_pages_concur trivialOracle false [anonPairZero]).ret =
      some (if (exchange_pages_concur trivialOracle false
                  [anonPairZero]).st.nrFailed = 0
            then 0 else -EFAULT) ∧
    (exchange_pages_concur trivialOracle false [anonPairZero]).st.nrFailed =
      (exchange_pages_concur trivialOracle false
          [anonPairZero]).st.permCount +
        (exchange_pages_concur trivialOracle false
            [anonPairZero]).st.retry +
        (exchange_pages_concur trivialOracle false
            [anonPairZero]).st.seqFailCount :=
  ⟨(exchange_pages_concur_spec trivialOracle false [anonPairZero]).2.2.1
      (by decide),
   (exchange_pages_concur_spec trivialOracle false [anonPairZero]).2.2.2
      (by decide) (by decide)⟩
